import Mathlib

/-!
Verification of the geometric framing and batch-orchestration pipeline of
`blender_batch_render.py` (blender-sprite-render).

The Python source is shallowly embedded:

* floats (orthographic scale, pixel density, camera angles) become `ℚ`;
  real trigonometry in the camera placement becomes `ℝ` with `Real.sin`/`Real.cos`;
* `int(x)` (Python truncation toward zero) becomes `pyInt`;
* `2 ** math.ceil(math.log2 n)` for an integer `n ≥ 1` becomes `2 ^ ceilLog2 n`
  (`math.log2` raises `ValueError` on `n ≤ 0`, modelled as `Option.none`);
* the batch loop of `process_batch` becomes explicit state passing over
  `BatchState`, with the external collaborators (importer, renderer, scene
  mesh census) abstracted as oracles in `Env`, and the written output files
  tracked as a list of paths.
-/

namespace BlenderBatchRender

/-! ### Canvas sizing (`calculate_canvas_and_position`, lines 332-336)

`required_pixels = int(config.ortho_scale * config.pixels_per_unit)`
`canvas_size = 2 ** math.ceil(math.log2(required_pixels))`
`canvas_size = max(config.min_canvas_size, min(canvas_size, config.max_canvas_size))`
-/

/-- Python `int()` on a real number: truncation toward zero. -/
def pyInt (q : ℚ) : ℤ := if 0 ≤ q then ⌊q⌋ else ⌈q⌉

/-- Fueled search for the least `k` with `n ≤ 2 ^ k` (kernel-computable). -/
def ceilLog2Go (n : ℕ) : ℕ → ℕ → ℕ
  | 0, k => k
  | fuel + 1, k => if n ≤ 2 ^ k then k else ceilLog2Go n fuel (k + 1)

/-- `math.ceil(math.log2 n)` for an integer `n ≥ 1`: the least `k` with `n ≤ 2 ^ k`. -/
def ceilLog2 (n : ℕ) : ℕ := ceilLog2Go n n 0

/-- Lines 334-336 of `calculate_canvas_and_position`.  `none` models the
`ValueError` raised by `math.log2` when the truncated product is `≤ 0`. -/
def canvasSizeCalc (ortho ppu : ℚ) (mn mx : ℕ) : Option ℕ :=
  let required : ℤ := pyInt (ortho * ppu)
  if required ≤ 0 then none
  else some (max mn (min (2 ^ ceilLog2 required.toNat) mx))

/-- Modelled from the spec: `required = ceil(extent * density)`;
`size = 2^ceil(log2(required))`; `size = clamp(size, min, max)` (§4.3),
written with `Nat.clog` as the ceiling base-2 logarithm. -/
def specCanvasCeil (ortho ppu : ℚ) (mn mx : ℕ) : ℕ :=
  max mn (min (2 ^ Nat.clog 2 (Int.toNat ⌈ortho * ppu⌉)) mx)

/-- The spec's canvas formula amended to use the source's truncation
(`int(...)`) in place of `ceil(...)`. -/
def specCanvasTrunc (ortho ppu : ℚ) (mn mx : ℕ) : ℕ :=
  max mn (min (2 ^ Nat.clog 2 (Int.toNat (pyInt (ortho * ppu)))) mx)

/-! ### Camera placement (`calculate_canvas_and_position`, lines 294-327) -/

/-- `camera_distance = 10.0` (line 298). -/
def cameraDistance : ℝ := 10

/-- Lines 302-308: the world-space offset of the camera from the bounds
center, as a function of the pitch (`config.camera_angle`) and yaw
(`config.camera_yaw`), both in degrees (`math.radians x = x * π / 180`). -/
noncomputable def cameraWorldOffset (angleDeg yawDeg : ℝ) : ℝ × ℝ × ℝ :=
  let angle_rad := angleDeg * (Real.pi / 180)
  let yaw_rad := yawDeg * (Real.pi / 180)
  let local_y_offset := -cameraDistance * Real.cos angle_rad
  let local_z_offset := cameraDistance * Real.sin angle_rad
  (local_y_offset * Real.sin yaw_rad, local_y_offset * Real.cos yaw_rad,
    local_z_offset)

/-- Lines 311-315: `camera_pos = center + (world_x_offset, world_y_offset,
local_z_offset)`. -/
noncomputable def cameraPos (center : ℝ × ℝ × ℝ) (angleDeg yawDeg : ℝ) :
    ℝ × ℝ × ℝ :=
  (center.1 + (cameraWorldOffset angleDeg yawDeg).1,
    center.2.1 + (cameraWorldOffset angleDeg yawDeg).2.1,
    center.2.2 + (cameraWorldOffset angleDeg yawDeg).2.2)

/-! ### Run configuration (`RenderConfig.__init__`, lines 49-82) -/

/-- The configuration snapshot, with the source's defaults.  `auto_crop`
defaults to `PIL_AVAILABLE` in the source; the model fixes the default to
`true` (the claims do not depend on it). -/
structure RenderConfig where
  input_dir : String := ""
  output_dir : String := "./rendered_sprites"
  resolution : ℕ := 512
  camera_angle : ℚ := 55
  camera_yaw : ℚ := 0
  samples : ℕ := 64
  ortho_scale : ℚ := 4
  pixels_per_unit : ℚ := 256
  min_canvas_size : ℕ := 256
  max_canvas_size : ℕ := 1024
  rotations : ℕ := 1
  light_strength : ℚ := 3
  light_angle_x : ℚ := 45
  light_angle_z : ℚ := 315
  formats : List String := [".gltf", ".glb", ".obj", ".fbx"]
  skip_existing : Bool := false
  auto_crop : Bool := true
  scale_factor : ℚ := 1
  verbose : Bool := false
  log_file : Option String := none
deriving DecidableEq

/-! ### Scene bounds and the framing step (lines 254-362)

A `Mesh` carries its bounding-box corners already taken to world space
(`obj.matrix_world @ Vector(corner)`, line 270); the camera pose is tracked
through its location (the rotation write on line 327 follows the same
control path: it happens only in the nonempty branch). -/

structure Mesh where
  corners : List (ℚ × ℚ × ℚ)

structure Camera where
  location : ℝ × ℝ × ℝ

structure BoundsMeta where
  width : ℚ
  height : ℚ
  depth : ℚ
  center : ℚ × ℚ × ℚ
deriving DecidableEq

def cornersOf (meshes : List Mesh) : List (ℚ × ℚ × ℚ) :=
  meshes.flatMap Mesh.corners

/-- Running minimum over a corner-coordinate list.  In the source the fold
starts from `+inf`; every mesh contributes its 8 corners, so the list is
nonempty whenever `mesh_count != 0` and the `[]` case is unreachable there. -/
def minQ : List ℚ → ℚ
  | [] => 0
  | x :: xs => xs.foldl min x

def maxQ : List ℚ → ℚ
  | [] => 0
  | x :: xs => xs.foldl max x

/-- `calculate_canvas_and_position` (lines 254-362): returns the updated
camera, the canvas size and the bounds metadata (`none` models the empty
dict `{}` of the degraded early return on line 280); the outer `none`
models the `ValueError` escaping from line 335. -/
noncomputable def calculate_canvas_and_position (camera : Camera)
    (meshes : List Mesh) (cfg : RenderConfig) :
    Option (Camera × ℕ × Option BoundsMeta) :=
  if meshes.length = 0 then some (camera, cfg.min_canvas_size, none)
  else
    let cs := cornersOf meshes
    let min_x := minQ (cs.map (·.1))
    let max_x := maxQ (cs.map (·.1))
    let min_y := minQ (cs.map (·.2.1))
    let max_y := maxQ (cs.map (·.2.1))
    let min_z := minQ (cs.map (·.2.2))
    let max_z := maxQ (cs.map (·.2.2))
    let center : ℚ × ℚ × ℚ :=
      ((min_x + max_x) / 2, (min_y + max_y) / 2, (min_z + max_z) / 2)
    let camera' : Camera :=
      ⟨cameraPos ((center.1 : ℝ), (center.2.1 : ℝ), (center.2.2 : ℝ))
        (cfg.camera_angle : ℝ) (cfg.camera_yaw : ℝ)⟩
    match canvasSizeCalc cfg.ortho_scale cfg.pixels_per_unit
        cfg.min_canvas_size cfg.max_canvas_size with
    | none => none
    | some s =>
      some (camera', s,
        some ⟨max_x - min_x, max_y - min_y, max_z - min_z, center⟩)

/-! ### Asset discovery (`find_models`, lines 468-476) -/

/-- Whether `s` ends with `post` (the effect of `rglob(f"*{fmt}")` on a file
path, for a format string without glob metacharacters: the glob match is
case-sensitive on POSIX platforms). -/
def strEndsWith (s post : String) : Bool :=
  decide (s.data.drop (s.data.length - post.data.length) = post.data)

/-- `find_models` (lines 468-476): per-format recursive glob, extended into
one list, then sorted.  `files` is the recursive enumeration of the input
tree; Python's stable `sorted` on paths is lexicographic string order. -/
def find_models (files : List String) (formats : List String) : List String :=
  List.insertionSort (· ≤ ·)
    (formats.flatMap fun fmt => files.filter fun f => strEndsWith f fmt)

/-- Modelled from the spec: the case-insensitive extension match of §4.5
("recursive, case-insensitive"), for comparison with `find_models`. -/
def lowerStr (s : String) : String := ⟨s.data.map Char.toLower⟩

def extMatchesCI (f : String) (formats : List String) : Bool :=
  formats.any fun fmt => strEndsWith (lowerStr f) (lowerStr fmt)

/-! ### Batch orchestration (`process_batch`, lines 479-634)

An `Asset` is a discovered model file: `relPath` is `rel_path` (the path
relative to the input root, extension included) and `stem` is `rel_path`
without its final extension, so that `rel_path.with_suffix('.png')` is
`stem ++ ".png"`.  Output paths assume the directory part contains no
occurrence of `".png"`, so `str(output_file).replace('.png', suffix + '.png')`
is `base ++ suffix ++ ".png"`.

`Env` abstracts the external collaborators: `importOk` is the outcome of
`import_model`, `meshCount` the number of MESH objects in the scene after
import, and `renderOk` the outcome of `render_sprite` for an output path.

A `RenderEvent` is recorded for every successfully rendered sprite, with the
yaw the camera was positioned at (`config.camera_yaw` at render time) and
the `rotation_degrees` / `direction` fields written into its metadata. -/

structure Asset where
  relPath : String
  stem : String
deriving DecidableEq

structure Env where
  importOk : Asset → Bool
  meshCount : Asset → ℕ
  renderOk : String → Bool

structure RenderEvent where
  outPath : String
  yawUsed : ℚ
  metaDegrees : ℚ
  metaDirection : String
deriving DecidableEq

structure BatchState where
  processed : ℕ
  skipped : ℕ
  failed : ℕ
  failedFiles : List String
  fs : List String
  events : List RenderEvent
deriving DecidableEq

/-- The canvas part of `calculate_canvas_and_position` as seen from the
batch loop: the degraded early return (line 280) yields the minimum canvas
size, otherwise lines 334-336 run (and may raise, `none`). -/
def canvasOutcome (cfg : RenderConfig) (meshCount : ℕ) : Option ℕ :=
  if meshCount = 0 then some cfg.min_canvas_size
  else
    canvasSizeCalc cfg.ortho_scale cfg.pixels_per_unit cfg.min_canvas_size
      cfg.max_canvas_size

/-- Lines 539-544: the fixed rotation list `[(0, '_s', 'South'),
(90, '_e', 'East'), (180, '_n', 'North'), (270, '_w', 'West')]`. -/
def rotations4 : List (ℚ × String × String) :=
  [(0, "_s", "South"), (90, "_e", "East"), (180, "_n", "North"),
    (270, "_w", "West")]

structure LoopState where
  fs : List String
  events : List RenderEvent
  failedCount : ℕ
  failedFiles : List String
  renderSuccess : Bool
deriving DecidableEq

/-- Lines 550-586: the per-rotation loop.  Each iteration overwrites
`config.camera_yaw` with the rotation angle (line 556), recomputes canvas
and camera (line 564, which may raise: `none`), renders to
`base ++ suffix ++ ".png"`, and on failure increments the failure counters
and clears `render_success`; the (possibly mutated) config is threaded. -/
def rotationLoop (env : Env) (a : Asset) (base : String) :
    List (ℚ × String × String) → RenderConfig → LoopState →
      Option (RenderConfig × LoopState)
  | [], cfg, ls => some (cfg, ls)
  | (angle, suffix, direction) :: rest, cfg, ls =>
    let cfg' := { cfg with camera_yaw := angle }
    match canvasOutcome cfg' (env.meshCount a) with
    | none => none
    | some _ =>
      let rotated := base ++ suffix ++ ".png"
      if env.renderOk rotated then
        rotationLoop env a base rest cfg'
          { ls with
            fs := rotated :: ls.fs,
            events := ls.events ++
              [⟨rotated, cfg'.camera_yaw, angle, direction⟩] }
      else
        rotationLoop env a base rest cfg'
          { ls with
            failedCount := ls.failedCount + 1,
            failedFiles :=
              ls.failedFiles ++ [a.relPath ++ " (" ++ direction ++ ")"],
            renderSuccess := false }

/-- One iteration of the `for idx, model_path in enumerate(models, 1)` loop
(lines 508-616): skip-existing check against the unsuffixed
`output_file` (line 516), import (line 530), then either the 4-rotation
branch (lines 536-593, restoring `config.camera_yaw` on line 589 and
counting the asset as processed only when `render_success` survived) or the
single-render branch (lines 594-616, metadata `rotation_degrees = 0`,
`direction = 'South'`). -/
def processAsset (env : Env) (a : Asset) (cfg : RenderConfig)
    (st : BatchState) : Option (RenderConfig × BatchState) :=
  let base := cfg.output_dir ++ "/" ++ a.stem
  let outFile := base ++ ".png"
  if cfg.skip_existing = true ∧ outFile ∈ st.fs then
    some (cfg, { st with skipped := st.skipped + 1 })
  else if env.importOk a = false then
    some (cfg, { st with
      failed := st.failed + 1,
      failedFiles := st.failedFiles ++ [a.relPath] })
  else if cfg.rotations = 4 then
    let original_yaw := cfg.camera_yaw
    match rotationLoop env a base rotations4 cfg
        ⟨st.fs, st.events, st.failed, st.failedFiles, true⟩ with
    | none => none
    | some (cfgL, ls) =>
      some ({ cfgL with camera_yaw := original_yaw },
        { st with
          fs := ls.fs,
          events := ls.events,
          failed := ls.failedCount,
          failedFiles := ls.failedFiles,
          processed :=
            if ls.renderSuccess then st.processed + 1 else st.processed })
  else
    match canvasOutcome cfg (env.meshCount a) with
    | none => none
    | some _ =>
      if env.renderOk outFile then
        some (cfg, { st with
          fs := outFile :: st.fs,
          events := st.events ++ [⟨outFile, cfg.camera_yaw, 0, "South"⟩],
          processed := st.processed + 1 })
      else
        some (cfg, { st with
          failed := st.failed + 1,
          failedFiles := st.failedFiles ++ [a.relPath] })

/-- The whole per-model loop of `process_batch`, over the sorted asset
list; the shared mutable `config` object is threaded through. -/
def processAssets (env : Env) :
    List Asset → RenderConfig → BatchState →
      Option (RenderConfig × BatchState)
  | [], cfg, st => some (cfg, st)
  | a :: rest, cfg, st =>
    match processAsset env a cfg st with
    | none => none
    | some (cfg', st') => processAssets env rest cfg' st'

/-! ### Concrete scenario fixtures -/

/-- All collaborators succeed; imported assets yield no mesh objects (the
degraded framing path, which renders like any other and keeps the batch
bookkeeping identical while avoiding irrational canvas arithmetic). -/
def envAll : Env := ⟨fun _ => true, fun _ => 0, fun _ => true⟩

/-- Like `envAll` but the import of `b.glb` fails (unsupported extension). -/
def envBFails : Env :=
  ⟨fun a => !(a.relPath = "b.glb" : Bool), fun _ => 0, fun _ => true⟩

def cfgRot4 : RenderConfig :=
  { output_dir := "o", rotations := 4, skip_existing := true }

def cfgRot1 : RenderConfig :=
  { output_dir := "o", rotations := 1, skip_existing := true }

def cfgYaw45 : RenderConfig :=
  { output_dir := "o", rotations := 1, camera_yaw := 45 }

def assetM : Asset := ⟨"m.glb", "m"⟩

def batchState0 : BatchState := ⟨0, 0, 0, [], [], []⟩

/-! ### Properties of the ceiling base-2 logarithm -/

lemma ceilLog2Go_eq_clog (n : ℕ) (fuel k : ℕ) (h1 : k ≤ Nat.clog 2 n)
    (h2 : Nat.clog 2 n ≤ k + fuel) : ceilLog2Go n fuel k = Nat.clog 2 n := by
  induction fuel generalizing k with
  | zero =>
    simp only [ceilLog2Go]
    omega
  | succ m ih =>
    simp only [ceilLog2Go]
    by_cases h : n ≤ 2 ^ k
    · rw [if_pos h]
      have hk := (Nat.le_pow_iff_clog_le one_lt_two).1 h
      omega
    · rw [if_neg h]
      have hk : ¬Nat.clog 2 n ≤ k := fun hc =>
        h ((Nat.le_pow_iff_clog_le one_lt_two).2 hc)
      exact ih (k + 1) (by omega) (by omega)

lemma ceilLog2_eq_clog (n : ℕ) : ceilLog2 n = Nat.clog 2 n :=
  ceilLog2Go_eq_clog n n 0 (Nat.zero_le _)
    (by simpa using (Nat.le_pow_iff_clog_le one_lt_two).1 (Nat.lt_two_pow n).le)

lemma pyInt_mul_nat (a b : ℕ) : pyInt ((a : ℚ) * (b : ℚ)) = (a * b : ℕ) := by
  unfold pyInt
  rw [if_pos (by positivity)]
  rw [show ((a : ℚ) * (b : ℚ)) = ((a * b : ℕ) : ℚ) by push_cast; ring]
  exact_mod_cast Int.floor_natCast (a * b)

/-! ### Claim C2: the canvas-size formula -/

/-- Claim C2 (counterexample): the computed canvas size does not equal
`clamp(2^ceil(log2(ceil(extent * density))), min, max)` for every input:
at `extent = 2049/2`, `density = 1`, `min = 256`, `max = 4096` the code
truncates `1024.5` to `1024` and yields `1024`, while the spec's ceiling
formula gives `ceil = 1025`, next power of two `2048`. -/
theorem canvasSize_ceil_formula_counterexample :
    canvasSizeCalc (2049 / 2) 1 256 4096 = some 1024 ∧
    specCanvasCeil (2049 / 2) 1 256 4096 = 2048 := by
  constructor
  · have h : pyInt ((2049 : ℚ) / 2 * 1) = 1024 := by
      unfold pyInt
      rw [if_pos (by norm_num)]
      norm_num
    simp only [canvasSizeCalc, h]
    decide
  · have h : (⌈(2049 : ℚ) / 2 * 1⌉ : ℤ) = 1025 := by
      rw [Int.ceil_eq_iff]
      norm_num
    simp only [specCanvasCeil, h, ← ceilLog2_eq_clog]
    decide

/-- Claim C2 (amended): for every orthographic extent, pixel density and
min/max canvas bound whose truncated product is at least 1, the computed
canvas size equals `clamp(2^ceil(log2(trunc(extent * density))), min, max)`
— the source truncates the product (`int(...)`) rather than taking its
ceiling; in particular extent=1.0, density=100.0, min=256, max=1024 yields
256, and extent=4.0, density=256.0, min=256, max=1024 yields 1024. -/
theorem canvasSize_trunc_formula (ortho ppu : ℚ) (mn mx : ℕ)
    (h : 1 ≤ pyInt (ortho * ppu)) :
    canvasSizeCalc ortho ppu mn mx = some (specCanvasTrunc ortho ppu mn mx) ∧
    canvasSizeCalc 1 100 256 1024 = some 256 ∧
    canvasSizeCalc 4 256 256 1024 = some 1024 := by
  refine ⟨?_, ?_, ?_⟩
  · simp only [canvasSizeCalc, specCanvasTrunc, ceilLog2_eq_clog]
    rw [if_neg (by omega)]
  · have h1 : pyInt ((1 : ℚ) * 100) = 100 := by
      have := pyInt_mul_nat 1 100
      simpa using this
    simp only [canvasSizeCalc, h1]
    decide
  · have h2 : pyInt ((4 : ℚ) * 256) = 1024 := by
      have := pyInt_mul_nat 4 256
      simpa using this
    simp only [canvasSizeCalc, h2]
    decide

/-- Witness for `canvasSize_trunc_formula` at extent=4, density=256. -/
theorem canvasSize_trunc_formula_witness :
    canvasSizeCalc 4 256 256 1024 = some (specCanvasTrunc 4 256 256 1024) ∧
    canvasSizeCalc 1 100 256 1024 = some 256 ∧
    canvasSizeCalc 4 256 256 1024 = some 1024 :=
  canvasSize_trunc_formula 4 256 256 1024
    (by
      have := pyInt_mul_nat 4 256
      simp only [Nat.cast_ofNat] at this
      omega)

/-! ### Claim C3: canvas bounds and power-of-two shape -/

/-- Claim C3 (counterexample): with bounds that are not powers of two the
canvas size need not be a power of two: extent=4, density=256, min=256,
max=1000 yields exactly 1000. -/
theorem canvas_pow2_counterexample :
    canvasSizeCalc 4 256 256 1000 = some 1000 ∧ ∀ k : ℕ, 2 ^ k ≠ 1000 := by
  constructor
  · have h2 : pyInt ((4 : ℚ) * 256) = 1024 := by
      have := pyInt_mul_nat 4 256
      simpa using this
    simp only [canvasSizeCalc, h2]
    decide
  · intro k
    rcases le_or_lt k 9 with hk | hk
    · have h := Nat.pow_le_pow_right (n := 2) (by norm_num) hk
      have h9 : (2 : ℕ) ^ 9 = 512 := by norm_num
      omega
    · have h := Nat.pow_le_pow_right (n := 2) (by norm_num) hk
      have h10 : (2 : ℕ) ^ 10 = 1024 := by norm_num
      omega

/-- Claim C3 (amended): for every configuration whose truncated pixel
requirement is at least 1 and whose bounds satisfy `min ≤ max`, the canvas
size `s` exists and satisfies `min ≤ s ≤ max`; when additionally both
bounds are powers of two, `s` is a power of two. -/
theorem canvas_bounds_and_pow2 (ortho ppu : ℚ) (mn mx : ℕ)
    (hreq : 1 ≤ pyInt (ortho * ppu)) (hb : mn ≤ mx) :
    ∃ s, canvasSizeCalc ortho ppu mn mx = some s ∧ mn ≤ s ∧ s ≤ mx ∧
      ∀ i j : ℕ, mn = 2 ^ i → mx = 2 ^ j → ∃ k, s = 2 ^ k := by
  refine ⟨max mn (min (2 ^ ceilLog2 (pyInt (ortho * ppu)).toNat) mx),
    ?_, le_max_left _ _, max_le hb (min_le_right _ _), ?_⟩
  · simp only [canvasSizeCalc]
    rw [if_neg (by omega)]
  · intro i j hi hj
    rcases max_choice mn (min (2 ^ ceilLog2 (pyInt (ortho * ppu)).toNat) mx)
      with hM | hM
    · exact ⟨i, by rw [hM, hi]⟩
    · rcases min_choice (2 ^ ceilLog2 (pyInt (ortho * ppu)).toNat) mx
        with hm | hm
      · exact ⟨ceilLog2 (pyInt (ortho * ppu)).toNat, by rw [hM, hm]⟩
      · exact ⟨j, by rw [hM, hm, hj]⟩

/-- Witness for `canvas_bounds_and_pow2` at the default configuration. -/
theorem canvas_bounds_and_pow2_witness :
    ∃ s, canvasSizeCalc 4 256 256 1024 = some s ∧ 256 ≤ s ∧ s ≤ 1024 ∧
      ∀ i j : ℕ, 256 = 2 ^ i → 1024 = 2 ^ j → ∃ k, s = 2 ^ k :=
  canvas_bounds_and_pow2 4 256 256 1024
    (by
      have := pyInt_mul_nat 4 256
      simp only [Nat.cast_ofNat] at this
      omega)
    (by norm_num)

/-! ### Claim C10: the canvas computation needs a positive truncated product -/

/-- Claim C10: for every configuration with a (nonnegative) product
`ortho_scale * pixels_per_unit < 1`, the truncated required pixel count is
0, and `math.log2` is applied to a non-positive number, so the framing
computation raises (`none`) instead of returning a clamped size. -/
theorem canvas_requires_positive_product (ortho ppu : ℚ) (mn mx : ℕ)
    (h0 : 0 ≤ ortho * ppu) (h1 : ortho * ppu < 1) :
    pyInt (ortho * ppu) = 0 ∧ canvasSizeCalc ortho ppu mn mx = none := by
  have hz : pyInt (ortho * ppu) = 0 := by
    unfold pyInt
    rw [if_pos h0]
    exact Int.floor_eq_zero_iff.2 ⟨h0, h1⟩
  refine ⟨hz, ?_⟩
  simp only [canvasSizeCalc, hz]
  rw [if_pos (le_refl (0 : ℤ))]

/-- Witness for `canvas_requires_positive_product` at extent=1/2, density=1. -/
theorem canvas_requires_positive_product_witness :
    pyInt ((1 : ℚ) / 2 * 1) = 0 ∧ canvasSizeCalc (1 / 2) 1 256 1024 = none :=
  canvas_requires_positive_product (1 / 2) 1 256 1024 (by norm_num) (by norm_num)

/-! ### Claim C6: camera offset directions -/

/-- Claim C6: at yaw=0 the camera offset has zero lateral (x) component for
every pitch; at yaw=90° the offset has zero forward/backward (y) component
and its lateral magnitude equals the forward-offset magnitude at yaw=0;
and at pitch=90° the camera position is `center + (0, 0, R)` for every yaw. -/
theorem camera_offset_directions (pitch : ℝ) (center : ℝ × ℝ × ℝ) :
    (cameraWorldOffset pitch 0).1 = 0 ∧
    (cameraWorldOffset pitch 90).2.1 = 0 ∧
    |(cameraWorldOffset pitch 90).1| = |(cameraWorldOffset pitch 0).2.1| ∧
    ∀ yaw : ℝ, cameraPos center 90 yaw =
      (center.1, center.2.1, center.2.2 + cameraDistance) := by
  have h90 : (90 : ℝ) * (Real.pi / 180) = Real.pi / 2 := by ring
  have h00 : (0 : ℝ) * (Real.pi / 180) = 0 := by ring
  refine ⟨?_, ?_, ?_, ?_⟩
  · simp [cameraWorldOffset, h00]
  · simp [cameraWorldOffset, h90]
  · simp [cameraWorldOffset, h90, h00]
  · intro yaw
    simp [cameraPos, cameraWorldOffset, h90]

/-! ### Claim C8: zero-mesh scenes degrade instead of failing -/

/-- Claim C8: for a scene with zero mesh objects, the framing step leaves
the camera untouched and returns the configured minimum canvas size with
empty bounds metadata, and it does not raise. -/
theorem empty_scene_degraded (camera : Camera) (cfg : RenderConfig) :
    calculate_canvas_and_position camera [] cfg =
      some (camera, cfg.min_canvas_size, none) := by
  simp [calculate_canvas_and_position]

/-! ### Claim C9: asset discovery -/

/-- Claim C9 (counterexample): discovery is case-sensitive, not
case-insensitive: the file `A.GLB` matches the accepted set `{.glb}` up to
case but is not returned. -/
theorem find_models_case_counterexample :
    find_models ["A.GLB"] [".glb"] = [] ∧
    extMatchesCI "A.GLB" [".glb"] = true := by
  constructor
  · decide
  · decide

/-- Claim C9 (amended): discovery returns exactly the files under the input
root whose name ends with one of the accepted format strings, matched
recursively and case-sensitively, as a single list globally sorted by path. -/
theorem find_models_sorted_suffix (files formats : List String) :
    List.Sorted (· ≤ ·) (find_models files formats) ∧
    ∀ f, f ∈ find_models files formats ↔
      f ∈ files ∧ ∃ fmt ∈ formats, strEndsWith f fmt = true := by
  constructor
  · exact List.sorted_insertionSort _ _
  · intro f
    simp only [find_models, List.mem_insertionSort, List.mem_flatMap,
      List.mem_filter]
    constructor
    · rintro ⟨fmt, hfmt, hf, he⟩
      exact ⟨hf, fmt, hfmt, he⟩
    · rintro ⟨hf, fmt, hfmt, he⟩
      exact ⟨fmt, hfmt, hf, he⟩

/-- Witness for `find_models_sorted_suffix` on a two-file tree. -/
theorem find_models_sorted_suffix_witness :
    List.Sorted (· ≤ ·) (find_models ["b.obj", "a.obj"] [".obj"]) ∧
    ∀ f, f ∈ find_models ["b.obj", "a.obj"] [".obj"] ↔
      f ∈ ["b.obj", "a.obj"] ∧ ∃ fmt ∈ [".obj"], strEndsWith f fmt = true :=
  find_models_sorted_suffix ["b.obj", "a.obj"] [".obj"]

/-! ### Properties of the batch loop -/

lemma canvasOutcome_yaw (cfg : RenderConfig) (x : ℚ) (m : ℕ) :
    canvasOutcome { cfg with camera_yaw := x } m = canvasOutcome cfg m := rfl

lemma rotationLoop_spec (env : Env) (a : Asset) (base : String)
    (rots : List (ℚ × String × String)) (cfg : RenderConfig) (ls : LoopState)
    (cfgL : RenderConfig) (lsL : LoopState)
    (h : rotationLoop env a base rots cfg ls = some (cfgL, lsL)) :
    (∀ x : ℚ, ({ cfgL with camera_yaw := x } : RenderConfig) =
      { cfg with camera_yaw := x }) ∧
    lsL.renderSuccess = (ls.renderSuccess &&
      rots.all fun r => env.renderOk (base ++ r.2.1 ++ ".png")) ∧
    lsL.failedCount = ls.failedCount +
      rots.countP (fun r => !env.renderOk (base ++ r.2.1 ++ ".png")) ∧
    (∀ q ∈ ls.fs, q ∈ lsL.fs) ∧
    (∀ r ∈ rots, env.renderOk (base ++ r.2.1 ++ ".png") = true →
      base ++ r.2.1 ++ ".png" ∈ lsL.fs) ∧
    lsL.events = ls.events ++
      (rots.filter fun r => env.renderOk (base ++ r.2.1 ++ ".png")).map
        fun r => ⟨base ++ r.2.1 ++ ".png", r.1, r.1, r.2.2⟩ := by
  induction rots generalizing cfg ls with
  | nil =>
    simp only [rotationLoop, Option.some.injEq, Prod.mk.injEq] at h
    obtain ⟨rfl, rfl⟩ := h
    refine ⟨fun x => rfl, by simp, by simp, fun q hq => hq, by simp, by simp⟩
  | cons r rest ih =>
    obtain ⟨angle, suffix, direction⟩ := r
    simp only [rotationLoop] at h
    cases hco : canvasOutcome { cfg with camera_yaw := angle }
        (env.meshCount a) with
    | none =>
      rw [hco] at h
      exact absurd h (by simp)
    | some c =>
      rw [hco] at h
      by_cases hr : env.renderOk (base ++ suffix ++ ".png") = true
      · rw [if_pos hr] at h
        obtain ⟨hcfg, hrs, hfc, hmono, hpaths, hev⟩ := ih _ _ h
        refine ⟨fun x => (hcfg x).trans rfl, ?_, ?_, ?_, ?_, ?_⟩
        · simpa [hr] using hrs
        · simpa [hr, List.countP_cons] using hfc
        · exact fun q hq => hmono q (List.mem_cons_of_mem _ hq)
        · intro r' hr' hrok
          rcases List.mem_cons.1 hr' with rfl | hmem
          · exact hmono _ (List.mem_cons_self _ _)
          · exact hpaths r' hmem hrok
        · simpa [hr, List.filter_cons, List.append_assoc] using hev
      · rw [if_neg hr] at h
        have hrf : env.renderOk (base ++ suffix ++ ".png") = false := by
          simpa using hr
        obtain ⟨hcfg, hrs, hfc, hmono, hpaths, hev⟩ := ih _ _ h
        refine ⟨fun x => (hcfg x).trans rfl, ?_, ?_, ?_, ?_, ?_⟩
        · simp only [List.all_cons, hrf, Bool.false_and, Bool.and_false]
          simpa using hrs
        · simp only [List.countP_cons, hrf] at hfc ⊢
          simp at hfc ⊢
          omega
        · exact fun q hq => hmono q hq
        · intro r' hr' hrok
          rcases List.mem_cons.1 hr' with rfl | hmem
          · simp [hrf] at hrok
          · exact hpaths r' hmem hrok
        · simpa [hrf, List.filter_cons] using hev

lemma processAsset_cfg (env : Env) (a : Asset) (cfg : RenderConfig)
    (st : BatchState) (p : RenderConfig × BatchState)
    (h : processAsset env a cfg st = some p) : p.1 = cfg := by
  simp only [processAsset] at h
  split at h
  · exact (congrArg Prod.fst (Option.some.inj h)).symm
  · split at h
    · exact (congrArg Prod.fst (Option.some.inj h)).symm
    · split at h
      · cases hloop : rotationLoop env a (cfg.output_dir ++ "/" ++ a.stem)
            rotations4 cfg ⟨st.fs, st.events, st.failed, st.failedFiles, true⟩ with
        | none =>
          rw [hloop] at h
          exact absurd h (by simp)
        | some q =>
          obtain ⟨cfgL, ls⟩ := q
          rw [hloop] at h
          have hcfg := (rotationLoop_spec env a _ rotations4 _ _ _ _ hloop).1
          obtain rfl := Option.some.inj h
          exact (hcfg cfg.camera_yaw).trans rfl
      · cases hco : canvasOutcome cfg (env.meshCount a) with
        | none =>
          rw [hco] at h
          exact absurd h (by simp)
        | some c =>
          rw [hco] at h
          by_cases hre : env.renderOk (cfg.output_dir ++ "/" ++ a.stem ++ ".png") = true
          · rw [if_pos hre] at h
            exact (congrArg Prod.fst (Option.some.inj h)).symm
          · rw [if_neg hre] at h
            exact (congrArg Prod.fst (Option.some.inj h)).symm

/-! ### Claim C7: the configuration survives the batch unchanged -/

/-- Claim C7: whenever the batch loop completes, the returned configuration
object equals the initial one: the per-rotation overwrite of
`config.camera_yaw` is restored after each asset's rotation loop, and no
other configuration field is modified at any point. -/
theorem config_restored_after_batch (env : Env) (assets : List Asset)
    (cfg : RenderConfig) (st : BatchState) (out : RenderConfig × BatchState)
    (h : processAssets env assets cfg st = some out) : out.1 = cfg := by
  induction assets generalizing cfg st with
  | nil =>
    simp only [processAssets, Option.some.injEq] at h
    rw [← h]
  | cons a rest ih =>
    simp only [processAssets] at h
    cases hp : processAsset env a cfg st with
    | none =>
      rw [hp] at h
      exact absurd h (by simp)
    | some q =>
      obtain ⟨cfg', st'⟩ := q
      rw [hp] at h
      exact (ih cfg' st' h).trans (processAsset_cfg env a cfg st _ hp)

/-- Witness for `config_restored_after_batch`: one 4-rotation asset. -/
theorem config_restored_after_batch_witness :
    ∃ out, processAssets envAll [assetM] cfgRot4 batchState0 = some out ∧
      out.1 = cfgRot4 :=
  ⟨_, rfl, config_restored_after_batch envAll [assetM] cfgRot4 batchState0 _ rfl⟩

/-! ### Claim C4: the rotation sequence and recorded degrees -/

/-- Claim C4 (counterexample): the recorded `rotation_degrees` does not
always equal the yaw used: with `rotations = 1` and a baseline yaw of 45°
the render uses yaw 45 but the metadata records 0. -/
theorem rotation_metadata_counterexample :
    (processAsset envAll assetM cfgYaw45 batchState0).map
        (fun p => p.2.events.map fun e => (e.yawUsed, e.metaDegrees)) =
      some [((45 : ℚ), 0)] ∧ (45 : ℚ) ≠ 0 := by
  constructor
  · decide
  · decide

/-- Claim C4 (amended): with `rotations = 4` the rendered sequence is
exactly South@0°/`_s`, East@90°/`_e`, North@180°/`_n`, West@270°/`_w`, in
order, and each sprite's recorded `rotation_degrees` equals the yaw used;
with `rotations = 1` a single unsuffixed South sprite is rendered at the
baseline yaw, but its recorded `rotation_degrees` is always 0, which equals
the yaw used only when the baseline yaw is 0. -/
theorem rotation_sequence (env : Env) (a : Asset) (cfg : RenderConfig)
    (st : BatchState) (p : RenderConfig × BatchState)
    (hskip : ¬(cfg.skip_existing = true ∧
      cfg.output_dir ++ "/" ++ a.stem ++ ".png" ∈ st.fs))
    (himp : env.importOk a = true)
    (hrok : ∀ q, env.renderOk q = true)
    (h : processAsset env a cfg st = some p) :
    (cfg.rotations = 4 → p.2.events = st.events ++
      [⟨cfg.output_dir ++ "/" ++ a.stem ++ "_s" ++ ".png", 0, 0, "South"⟩,
       ⟨cfg.output_dir ++ "/" ++ a.stem ++ "_e" ++ ".png", 90, 90, "East"⟩,
       ⟨cfg.output_dir ++ "/" ++ a.stem ++ "_n" ++ ".png", 180, 180, "North"⟩,
       ⟨cfg.output_dir ++ "/" ++ a.stem ++ "_w" ++ ".png", 270, 270, "West"⟩]) ∧
    (cfg.rotations ≠ 4 → p.2.events = st.events ++
      [⟨cfg.output_dir ++ "/" ++ a.stem ++ ".png", cfg.camera_yaw, 0, "South"⟩]) := by
  simp only [processAsset] at h
  rw [if_neg hskip] at h
  rw [if_neg (by simp [himp])] at h
  constructor
  · intro h4
    rw [if_pos h4] at h
    cases hloop : rotationLoop env a (cfg.output_dir ++ "/" ++ a.stem)
        rotations4 cfg ⟨st.fs, st.events, st.failed, st.failedFiles, true⟩ with
    | none =>
      rw [hloop] at h
      exact absurd h (by simp)
    | some q =>
      obtain ⟨cfgL, ls⟩ := q
      rw [hloop] at h
      have hev := (rotationLoop_spec env a _ rotations4 _ _ _ _ hloop).2.2.2.2.2
      have hfilter : rotations4.filter (fun r => env.renderOk
          (cfg.output_dir ++ "/" ++ a.stem ++ r.2.1 ++ ".png")) = rotations4 :=
        List.filter_eq_self.2 fun r _ => hrok _
      obtain rfl := Option.some.inj h
      show ls.events = _
      rw [hev, hfilter]
      simp [rotations4]
  · intro hn4
    rw [if_neg hn4] at h
    cases hco : canvasOutcome cfg (env.meshCount a) with
    | none =>
      rw [hco] at h
      exact absurd h (by simp)
    | some c =>
      rw [hco] at h
      rw [if_pos (hrok _)] at h
      obtain rfl := Option.some.inj h
      rfl

/-- Witness for `rotation_sequence`: one 4-rotation asset, all renders
succeeding. -/
theorem rotation_sequence_witness :
    ∃ p, processAsset envAll assetM cfgRot4 batchState0 = some p ∧
      p.2.events = batchState0.events ++
        [⟨cfgRot4.output_dir ++ "/" ++ assetM.stem ++ "_s" ++ ".png", 0, 0, "South"⟩,
         ⟨cfgRot4.output_dir ++ "/" ++ assetM.stem ++ "_e" ++ ".png", 90, 90, "East"⟩,
         ⟨cfgRot4.output_dir ++ "/" ++ assetM.stem ++ "_n" ++ ".png", 180, 180, "North"⟩,
         ⟨cfgRot4.output_dir ++ "/" ++ assetM.stem ++ "_w" ++ ".png", 270, 270, "West"⟩] :=
  ⟨_, rfl, (rotation_sequence envAll assetM cfgRot4 batchState0 _
    (by decide) (by decide) (fun q => rfl) rfl).1 rfl⟩

/-! ### Claim C5: per-asset failure isolation -/

/-- Claim C5: with `rotations = 4`, an asset is counted processed exactly
when all four rotations rendered successfully; each successfully written
sibling rotation stays on disk even when another rotation fails, previously
written files are never discarded, every failed rotation contributes to the
failed count, and any one failed rotation makes the failed count grow;
moreover for 3 assets where asset #2 fails to import, the run yields
`processed = 2`, `failed = 1`, asset #2's relative path in the failed list,
and output artifacts for assets #1 and #3. -/
theorem failure_isolation (env : Env) (a : Asset) (cfg : RenderConfig)
    (st : BatchState) (p : RenderConfig × BatchState)
    (hskip : ¬(cfg.skip_existing = true ∧
      cfg.output_dir ++ "/" ++ a.stem ++ ".png" ∈ st.fs))
    (himp : env.importOk a = true)
    (h : processAsset env a cfg st = some p) :
    (cfg.rotations = 4 →
      (p.2.processed = st.processed + 1 ↔
        rotations4.all (fun r => env.renderOk
          (cfg.output_dir ++ "/" ++ a.stem ++ r.2.1 ++ ".png")) = true) ∧
      (∀ r ∈ rotations4, env.renderOk
          (cfg.output_dir ++ "/" ++ a.stem ++ r.2.1 ++ ".png") = true →
        cfg.output_dir ++ "/" ++ a.stem ++ r.2.1 ++ ".png" ∈ p.2.fs) ∧
      (∀ q ∈ st.fs, q ∈ p.2.fs) ∧
      p.2.failed = st.failed + rotations4.countP (fun r => !env.renderOk
        (cfg.output_dir ++ "/" ++ a.stem ++ r.2.1 ++ ".png")) ∧
      ((∃ r ∈ rotations4, env.renderOk
          (cfg.output_dir ++ "/" ++ a.stem ++ r.2.1 ++ ".png") = false) →
        st.failed < p.2.failed)) ∧
    (cfg.rotations ≠ 4 →
      (p.2.processed = st.processed + 1 ↔
        env.renderOk (cfg.output_dir ++ "/" ++ a.stem ++ ".png") = true) ∧
      (env.renderOk (cfg.output_dir ++ "/" ++ a.stem ++ ".png") = false →
        p.2.failed = st.failed + 1 ∧ p.2.fs = st.fs)) ∧
    processAssets envBFails
        [⟨"a.glb", "a"⟩, ⟨"b.glb", "b"⟩, ⟨"c.glb", "c"⟩]
        { output_dir := "o" } batchState0 =
      some ({ output_dir := "o" },
        { processed := 2, skipped := 0, failed := 1, failedFiles := ["b.glb"],
          fs := ["o/c.png", "o/a.png"],
          events := [⟨"o/a.png", 0, 0, "South"⟩,
            ⟨"o/c.png", 0, 0, "South"⟩] }) := by
  simp only [processAsset] at h
  rw [if_neg hskip] at h
  rw [if_neg (by simp [himp])] at h
  refine ⟨?_, ?_, by decide⟩
  · intro h4
    rw [if_pos h4] at h
    cases hloop : rotationLoop env a (cfg.output_dir ++ "/" ++ a.stem)
        rotations4 cfg ⟨st.fs, st.events, st.failed, st.failedFiles, true⟩ with
    | none =>
      rw [hloop] at h
      exact absurd h (by simp)
    | some q =>
      obtain ⟨cfgL, ls⟩ := q
      rw [hloop] at h
      obtain ⟨-, hrs, hfc, hmono, hpaths, -⟩ :=
        rotationLoop_spec env a _ rotations4 _ _ _ _ hloop
      simp only at hrs hfc
      rw [Bool.true_and] at hrs
      obtain rfl := Option.some.inj h
      refine ⟨?_, hpaths, hmono, hfc, ?_⟩
      · show (if ls.renderSuccess then st.processed + 1 else st.processed) =
          st.processed + 1 ↔ _
        rw [hrs]
        cases hall : rotations4.all fun r => env.renderOk
            (cfg.output_dir ++ "/" ++ a.stem ++ r.2.1 ++ ".png") with
        | false => simp
        | true => simp
      · rintro ⟨r, hrmem, hrfail⟩
        have hpos : 0 < rotations4.countP fun r => !env.renderOk
            (cfg.output_dir ++ "/" ++ a.stem ++ r.2.1 ++ ".png") :=
          List.countP_pos_iff.2 ⟨r, hrmem, by simp [hrfail]⟩
        show st.failed < ls.failedCount
        omega
  · intro hn4
    rw [if_neg hn4] at h
    cases hco : canvasOutcome cfg (env.meshCount a) with
    | none =>
      rw [hco] at h
      exact absurd h (by simp)
    | some c =>
      rw [hco] at h
      by_cases hre : env.renderOk (cfg.output_dir ++ "/" ++ a.stem ++ ".png") = true
      · rw [if_pos hre] at h
        obtain rfl := Option.some.inj h
        exact ⟨by simp [hre], fun hfalse => by simp [hre] at hfalse⟩
      · rw [if_neg hre] at h
        obtain rfl := Option.some.inj h
        refine ⟨?_, fun _ => ⟨rfl, rfl⟩⟩
        show st.processed = st.processed + 1 ↔ _
        simp only [Bool.not_eq_true] at hre
        simp [hre]

/-- Witness for `failure_isolation`: one 4-rotation asset, all renders
succeeding. -/
theorem failure_isolation_witness :
    ∃ p, processAsset envAll assetM cfgRot4 batchState0 = some p ∧
      (p.2.processed = batchState0.processed + 1 ↔
        rotations4.all (fun r => envAll.renderOk
          (cfgRot4.output_dir ++ "/" ++ assetM.stem ++ r.2.1 ++ ".png")) = true) :=
  ⟨_, rfl, ((failure_isolation envAll assetM cfgRot4 batchState0 _
    (by decide) (by decide) rfl).1 rfl).1⟩

/-! ### Claim C1: skip-existing across two runs -/

/-- Claim C1 (code bug): with `rotations = 4` the run writes only the
`_s/_e/_n/_w`-suffixed outputs, but the skip-existing check tests the
unsuffixed `output_file`, which never exists; so a second run over the
unchanged input set re-imports and re-renders everything
(`skipped = 0`, `processed = 1`) instead of the documented
`skipped = total`, `processed = 0`.  With `rotations = 1` the second run
does skip every asset. -/
theorem skip_existing_second_run :
    (processAssets envAll [assetM] cfgRot4 batchState0 =
      some (cfgRot4,
        { processed := 1, skipped := 0, failed := 0, failedFiles := [],
          fs := ["o/m_w.png", "o/m_n.png", "o/m_e.png", "o/m_s.png"],
          events := [⟨"o/m_s.png", 0, 0, "South"⟩,
            ⟨"o/m_e.png", 90, 90, "East"⟩,
            ⟨"o/m_n.png", 180, 180, "North"⟩,
            ⟨"o/m_w.png", 270, 270, "West"⟩] })) ∧
    "o/m.png" ∉
      (["o/m_w.png", "o/m_n.png", "o/m_e.png", "o/m_s.png"] : List String) ∧
    (processAssets envAll [assetM] cfgRot4
        { batchState0 with
          fs := ["o/m_w.png", "o/m_n.png", "o/m_e.png", "o/m_s.png"] } =
      some (cfgRot4,
        { processed := 1, skipped := 0, failed := 0, failedFiles := [],
          fs := ["o/m_w.png", "o/m_n.png", "o/m_e.png", "o/m_s.png",
            "o/m_w.png", "o/m_n.png", "o/m_e.png", "o/m_s.png"],
          events := [⟨"o/m_s.png", 0, 0, "South"⟩,
            ⟨"o/m_e.png", 90, 90, "East"⟩,
            ⟨"o/m_n.png", 180, 180, "North"⟩,
            ⟨"o/m_w.png", 270, 270, "West"⟩] })) ∧
    (processAssets envAll [assetM] cfgRot1 batchState0 =
      some (cfgRot1,
        { processed := 1, skipped := 0, failed := 0, failedFiles := [],
          fs := ["o/m.png"], events := [⟨"o/m.png", 0, 0, "South"⟩] })) ∧
    (processAssets envAll [assetM] cfgRot1
        { batchState0 with fs := ["o/m.png"] } =
      some (cfgRot1,
        { processed := 0, skipped := 1, failed := 0, failedFiles := [],
          fs := ["o/m.png"], events := [] })) := by
  refine ⟨by decide, by decide, by decide, by decide, by decide⟩

end BlenderBatchRender
